import Mathlib

/-!
Verification of the Quest Camera Plugin JNI bridge
(`questcameraplugin/src/main/cpp/questcamera_jni.cpp`).

The bridge keeps four process-wide globals (`g_leftFrameCallback`,
`g_rightFrameCallback`, `g_errorCallback`, `g_jvm`), lets the engine runtime
register raw callback addresses, and forwards frame and error events from the
managed camera subsystem to those callbacks, pinning and releasing JNI array
handles around each invocation.  This file shallowly embeds that state and
those entry points and proves, or refutes, the specified properties.

Modelling conventions:
- a raw callback address (the `jlong` reinterpreted as a function pointer) is
  a `Nat`; the value `0` models the null pointer;
- a Java array visible through JNI is a list of element bit patterns together
  with a flag saying whether `Get*ArrayElements` succeeds (returns a
  non-null pinned pointer) for it; float elements are carried as opaque bit
  patterns, no arithmetic is ever performed on them;
- each delivery entry point is a pure function from the global state and the
  call inputs to a result record collecting the callback invocations it
  performed, the number of successfully pinned handles, the release calls it
  issued (with their mode), and the caller-visible contents of each array
  after the call;
- the contents a native pinned buffer holds at release time are passed in as
  unconstrained parameters, so theorems about release semantics hold for any
  possible behaviour of the invoked callback.
-/

namespace QuestCamera

/-- Raw callback address as stored in the globals; 0 models `nullptr`. -/
abbrev Addr := Nat

/-- Mutable globals of `questcamera_jni.cpp`: the three callback slots from
the source, the stereo-frame slot described by the specification, and the
`g_jvm` handle recorded by `JNI_OnLoad`. -/
structure PluginState where
  g_leftFrameCallback : Addr
  g_rightFrameCallback : Addr
  g_errorCallback : Addr
  g_stereoFrameCallback : Addr
  g_jvm : Addr
deriving Repr, DecidableEq

/-- Fixed set of event channels of the adapter. -/
inductive Channel
  | leftFrame
  | rightFrame
  | cameraError
  | stereoFrame
deriving Repr, DecidableEq

/-- JNI entry point `Java_..._setLeftFrameCallback`: stores the raw address
verbatim (`g_leftFrameCallback = reinterpret_cast<FrameCallback>(callback)`),
with no validation of the value. -/
def setLeftFrameCallback (st : PluginState) (callback : Addr) : PluginState :=
  { st with g_leftFrameCallback := callback }

/-- JNI entry point `Java_..._setRightFrameCallback`: stores the raw address
verbatim, with no validation of the value. -/
def setRightFrameCallback (st : PluginState) (callback : Addr) : PluginState :=
  { st with g_rightFrameCallback := callback }

/-- JNI entry point `Java_..._setErrorCallback`: stores the raw address
verbatim, with no validation of the value. -/
def setErrorCallback (st : PluginState) (callback : Addr) : PluginState :=
  { st with g_errorCallback := callback }

/-- Modelled from the spec: the stereo-frame channel's registration entry
point is described by the specification (fixed channel set
left-frame, right-frame, error, stereo-frame; a registration entry point per
channel) but no such setter is present in `src/`.  Per the spec the setter
stores the supplied address for the stereo channel, null meaning unregister,
with no validation. -/
def setStereoFrameCallback (st : PluginState) (callback : Addr) : PluginState :=
  { st with g_stereoFrameCallback := callback }

/-- Registration dispatched by channel: `register(channel, address)`. -/
def registerChannel (st : PluginState) (c : Channel) (callback : Addr) : PluginState :=
  match c with
  | .leftFrame => setLeftFrameCallback st callback
  | .rightFrame => setRightFrameCallback st callback
  | .cameraError => setErrorCallback st callback
  | .stereoFrame => setStereoFrameCallback st callback

/-- Resolution of a channel's slot: the read the dispatcher performs on the
corresponding global before delivering (`resolve(channel)`); 0 means the slot
is empty. -/
def resolveChannel (st : PluginState) (c : Channel) : Addr :=
  match c with
  | .leftFrame => st.g_leftFrameCallback
  | .rightFrame => st.g_rightFrameCallback
  | .cameraError => st.g_errorCallback
  | .stereoFrame => st.g_stereoFrameCallback

/-- Java array as seen through JNI: element bit patterns plus whether
pinning it via `Get*ArrayElements` succeeds (returns non-null). -/
structure JArray where
  data : List Nat
  retrievable : Bool
deriving Repr, DecidableEq

/-- Inputs of one mono frame-delivery call
(`onLeftFrameAvailable` / `onRightFrameAvailable`). -/
structure FrameDeliveryInput where
  frameData : JArray
  width : Int
  height : Int
  timestamp : Int
  intrinsics : JArray
  distortion : JArray
  pose : JArray
deriving Repr, DecidableEq

/-- Mode argument of `Release*ArrayElements`: `0` copies back and frees,
`JNI_COMMIT` copies back and keeps the buffer, `JNI_ABORT` frees the buffer
discarding any local changes. -/
inductive ReleaseMode
  | copyBackFree
  | jniCommit
  | jniAbort
deriving Repr, DecidableEq

/-- Whether a release mode is the pure-discard mode `JNI_ABORT`. -/
def ReleaseMode.isAbort : ReleaseMode → Bool
  | .jniAbort => true
  | _ => false

/-- Caller-visible contents of a Java array after
`Release*ArrayElements(array, native, mode)`: `JNI_ABORT` discards the native
buffer and leaves the caller's array untouched, the other two modes copy the
native buffer back into the caller's array. -/
def releaseArraySem (caller native : List Nat) (mode : ReleaseMode) : List Nat :=
  match mode with
  | .jniAbort => caller
  | _ => native

/-- One invocation of a registered mono frame callback, with the exact
arguments passed. -/
structure FrameInvocation where
  addr : Addr
  frameData : List Nat
  dataSize : Int
  width : Int
  height : Int
  timestamp : Int
  intrinsics : List Nat
  distortion : List Nat
  pose : List Nat
  isLeft : Bool
deriving Repr, DecidableEq

/-- Observable outcome of one mono frame-delivery call: callback invocations
performed, number of handles successfully pinned, release calls issued, and
the caller-visible contents of each input array at return. -/
structure FrameCallResult where
  invocations : List FrameInvocation
  acquired : Nat
  releases : List ReleaseMode
  frameDataAfter : List Nat
  intrinsicsAfter : List Nat
  distortionAfter : List Nat
  poseAfter : List Nat
deriving Repr, DecidableEq

/-- JNI entry point `Java_..._onLeftFrameAvailable`, transcribed from the
source: if `g_leftFrameCallback` is null, return at once; otherwise pin the
four arrays, and if any pin came back null return at once (the source issues
no release on this path); otherwise read the frame length, invoke the
callback once with `isLeft = true`, and release all four handles with
`JNI_ABORT`.  `hvFrame hvIntr hvDist hvPose` are the contents the pinned
native buffers hold at release time; they are unconstrained parameters. -/
def onLeftFrameAvailable (st : PluginState) (input : FrameDeliveryInput)
    (hvFrame hvIntr hvDist hvPose : List Nat) : FrameCallResult :=
  if st.g_leftFrameCallback = 0 then
    { invocations := [], acquired := 0, releases := [],
      frameDataAfter := input.frameData.data,
      intrinsicsAfter := input.intrinsics.data,
      distortionAfter := input.distortion.data,
      poseAfter := input.pose.data }
  else
    let fOk := input.frameData.retrievable
    let iOk := input.intrinsics.retrievable
    let dOk := input.distortion.retrievable
    let pOk := input.pose.retrievable
    let acq := (if fOk then 1 else 0) + (if iOk then 1 else 0) +
               (if dOk then 1 else 0) + (if pOk then 1 else 0)
    if !(fOk && iOk && dOk && pOk) then
      { invocations := [], acquired := acq, releases := [],
        frameDataAfter := input.frameData.data,
        intrinsicsAfter := input.intrinsics.data,
        distortionAfter := input.distortion.data,
        poseAfter := input.pose.data }
    else
      { invocations := [
          { addr := st.g_leftFrameCallback,
            frameData := input.frameData.data,
            dataSize := (input.frameData.data.length : Int),
            width := input.width, height := input.height,
            timestamp := input.timestamp,
            intrinsics := input.intrinsics.data,
            distortion := input.distortion.data,
            pose := input.pose.data,
            isLeft := true }],
        acquired := acq,
        releases := [.jniAbort, .jniAbort, .jniAbort, .jniAbort],
        frameDataAfter := releaseArraySem input.frameData.data hvFrame .jniAbort,
        intrinsicsAfter := releaseArraySem input.intrinsics.data hvIntr .jniAbort,
        distortionAfter := releaseArraySem input.distortion.data hvDist .jniAbort,
        poseAfter := releaseArraySem input.pose.data hvPose .jniAbort }

/-- JNI entry point `Java_..._onRightFrameAvailable`, transcribed from the
source; identical to the left entry point except that it reads
`g_rightFrameCallback` and passes `isLeft = false`. -/
def onRightFrameAvailable (st : PluginState) (input : FrameDeliveryInput)
    (hvFrame hvIntr hvDist hvPose : List Nat) : FrameCallResult :=
  if st.g_rightFrameCallback = 0 then
    { invocations := [], acquired := 0, releases := [],
      frameDataAfter := input.frameData.data,
      intrinsicsAfter := input.intrinsics.data,
      distortionAfter := input.distortion.data,
      poseAfter := input.pose.data }
  else
    let fOk := input.frameData.retrievable
    let iOk := input.intrinsics.retrievable
    let dOk := input.distortion.retrievable
    let pOk := input.pose.retrievable
    let acq := (if fOk then 1 else 0) + (if iOk then 1 else 0) +
               (if dOk then 1 else 0) + (if pOk then 1 else 0)
    if !(fOk && iOk && dOk && pOk) then
      { invocations := [], acquired := acq, releases := [],
        frameDataAfter := input.frameData.data,
        intrinsicsAfter := input.intrinsics.data,
        distortionAfter := input.distortion.data,
        poseAfter := input.pose.data }
    else
      { invocations := [
          { addr := st.g_rightFrameCallback,
            frameData := input.frameData.data,
            dataSize := (input.frameData.data.length : Int),
            width := input.width, height := input.height,
            timestamp := input.timestamp,
            intrinsics := input.intrinsics.data,
            distortion := input.distortion.data,
            pose := input.pose.data,
            isLeft := false }],
        acquired := acq,
        releases := [.jniAbort, .jniAbort, .jniAbort, .jniAbort],
        frameDataAfter := releaseArraySem input.frameData.data hvFrame .jniAbort,
        intrinsicsAfter := releaseArraySem input.intrinsics.data hvIntr .jniAbort,
        distortionAfter := releaseArraySem input.distortion.data hvDist .jniAbort,
        poseAfter := releaseArraySem input.pose.data hvPose .jniAbort }

/-- Java string as seen through JNI: its text plus whether
`GetStringUTFChars` succeeds (returns non-null). -/
structure JString where
  text : String
  retrievable : Bool
deriving Repr, DecidableEq

/-- Observable events of one error-delivery call, in order. -/
inductive ErrEvent
  | acquireStr
  | invoke (addr : Addr) (message : String)
  | releaseStr
deriving Repr, DecidableEq

/-- JNI entry point `Java_..._onCameraError`, transcribed from the source:
return at once if `g_errorCallback` is null; otherwise fetch the UTF-8 chars
of the message, and if the fetch succeeded invoke the callback once with
that string and then release the string handle. -/
def onCameraError (st : PluginState) (msg : JString) : List ErrEvent :=
  if st.g_errorCallback = 0 then
    []
  else if msg.retrievable then
    [.acquireStr, .invoke st.g_errorCallback msg.text, .releaseStr]
  else
    []

/-- Inputs of one stereo frame-delivery call per the specification: byte
buffer, width, height, timestamp and a variable-length metadata sequence. -/
structure StereoDeliveryInput where
  frameData : JArray
  width : Int
  height : Int
  timestamp : Int
  metadata : JArray
deriving Repr, DecidableEq

/-- One invocation of a registered stereo frame callback, with the exact
arguments passed; `metadataSize` is the metadata count handed to the
callback. -/
structure StereoInvocation where
  addr : Addr
  frameData : List Nat
  dataSize : Int
  width : Int
  height : Int
  timestamp : Int
  metadata : List Nat
  metadataSize : Int
deriving Repr, DecidableEq

/-- Observable outcome of one stereo frame-delivery call: callback
invocations performed, number of handles successfully pinned, release calls
issued, and the caller-visible contents of the two input arrays at
return. -/
structure StereoCallResult where
  invocations : List StereoInvocation
  acquired : Nat
  releases : List ReleaseMode
  frameDataAfter : List Nat
  metadataAfter : List Nat
deriving Repr, DecidableEq

/-- Modelled from the spec: the stereo-frame delivery entry point is
described by the specification (channel set including stereo-frame; delivery
inputs byte buffer, size, width, height, timestamp, metadata sequence and
metadata count; callback signature ending in `metadata*, metadataSize`) but
is absent from `src/`.  Per the spec: if the stereo slot is empty the call is
a no-op; otherwise the buffers are pinned, any unavailable buffer aborts the
call with every pinned handle released as a pure discard, and otherwise the
callback is invoked exactly once with the metadata count equal to the actual
length of the supplied metadata sequence, both handles being released
afterwards as pure discards.  `hvFrame hvMeta` are the contents the pinned
native buffers hold at release time; they are unconstrained parameters. -/
def onStereoFrameAvailable (st : PluginState) (input : StereoDeliveryInput)
    (hvFrame hvMeta : List Nat) : StereoCallResult :=
  if st.g_stereoFrameCallback = 0 then
    { invocations := [], acquired := 0, releases := [],
      frameDataAfter := input.frameData.data,
      metadataAfter := input.metadata.data }
  else
    let fOk := input.frameData.retrievable
    let mOk := input.metadata.retrievable
    let acq := (if fOk then 1 else 0) + (if mOk then 1 else 0)
    if !(fOk && mOk) then
      { invocations := [], acquired := acq,
        releases := List.replicate acq .jniAbort,
        frameDataAfter := input.frameData.data,
        metadataAfter := input.metadata.data }
    else
      { invocations := [
          { addr := st.g_stereoFrameCallback,
            frameData := input.frameData.data,
            dataSize := (input.frameData.data.length : Int),
            width := input.width, height := input.height,
            timestamp := input.timestamp,
            metadata := input.metadata.data,
            metadataSize := (input.metadata.data.length : Int) }],
        acquired := acq,
        releases := [.jniAbort, .jniAbort],
        frameDataAfter := releaseArraySem input.frameData.data hvFrame .jniAbort,
        metadataAfter := releaseArraySem input.metadata.data hvMeta .jniAbort }

/-- Environment oracle for the Command Relay: whether each JNI lookup made by
the `native*` entry points succeeds, the boolean result the managed
operation returns, and whether the managed operation raises a fault while
being invoked.  A fault raised by a managed call stays pending until
explicitly cleared with `ExceptionClear`. -/
structure RelayEnv where
  pluginClassFound : Bool
  companionClassFound : Bool
  companionFieldFound : Bool
  companionPresent : Bool
  getInstanceMethodFound : Bool
  instancePresent : Bool
  initMethodFound : Bool
  startDualMethodFound : Bool
  stopDualMethodFound : Bool
  startSingleMethodFound : Bool
  stopSingleMethodFound : Bool
  contextClassFound : Bool
  contextIsContext : Bool
  callResult : Bool
  callRaises : Bool
deriving Repr, DecidableEq

/-- JNI entry point `Java_..._nativeInitialize`, transcribed from the
source.  Returns the `jboolean` result paired with whether a fault raised by
the managed operation is still pending in the calling frame when the
function returns.  Every failed lookup returns `JNI_FALSE`; after
`CallBooleanMethod` the source performs `ExceptionCheck` and, on a raised
fault, `ExceptionClear` and returns `JNI_FALSE`. -/
def nativeInitialize (e : RelayEnv) : Bool × Bool :=
  if !e.pluginClassFound then (false, false)
  else if !e.companionClassFound then (false, false)
  else if !e.companionFieldFound then (false, false)
  else if !e.companionPresent then (false, false)
  else if !e.getInstanceMethodFound then (false, false)
  else if !e.instancePresent then (false, false)
  else if !e.initMethodFound then (false, false)
  else if !e.contextClassFound then (false, false)
  else if !e.contextIsContext then (false, false)
  else if e.callRaises then (false, false)
  else (e.callResult, false)

/-- JNI entry point `Java_..._nativeStartDualCamera`, transcribed from the
source.  Every failed lookup returns `JNI_FALSE`, but unlike
`nativeInitialize` the source performs no `ExceptionCheck` after
`CallBooleanMethod`: a fault raised by the managed operation is still
pending when the function returns. -/
def nativeStartDualCamera (e : RelayEnv) : Bool × Bool :=
  if !e.pluginClassFound then (false, false)
  else if !e.companionClassFound then (false, false)
  else if !e.companionFieldFound then (false, false)
  else if !e.companionPresent then (false, false)
  else if !e.getInstanceMethodFound then (false, false)
  else if !e.instancePresent then (false, false)
  else if !e.startDualMethodFound then (false, false)
  else (e.callResult, e.callRaises)

/-- JNI entry point `Java_..._nativeStopDualCamera`, transcribed from the
source.  Void return; the result is whether a fault raised by the managed
operation is still pending at return (the source performs no
`ExceptionCheck` after `CallVoidMethod`). -/
def nativeStopDualCamera (e : RelayEnv) : Bool :=
  if !e.pluginClassFound then false
  else if !e.companionClassFound then false
  else if !e.companionFieldFound then false
  else if !e.companionPresent then false
  else if !e.getInstanceMethodFound then false
  else if !e.instancePresent then false
  else if !e.stopDualMethodFound then false
  else e.callRaises

/-- JNI entry point `Java_..._nativeStartSingleCamera`, transcribed from the
source; `isLeft` is forwarded to the managed operation.  No `ExceptionCheck`
after `CallBooleanMethod`: a raised fault is still pending at return. -/
def nativeStartSingleCamera (e : RelayEnv) (_isLeft : Bool) : Bool × Bool :=
  if !e.pluginClassFound then (false, false)
  else if !e.companionClassFound then (false, false)
  else if !e.companionFieldFound then (false, false)
  else if !e.companionPresent then (false, false)
  else if !e.getInstanceMethodFound then (false, false)
  else if !e.instancePresent then (false, false)
  else if !e.startSingleMethodFound then (false, false)
  else (e.callResult, e.callRaises)

/-- JNI entry point `Java_..._nativeStopSingleCamera`, transcribed from the
source; void return, result is whether a raised fault is still pending at
return (no `ExceptionCheck` after `CallVoidMethod`). -/
def nativeStopSingleCamera (e : RelayEnv) (_isLeft : Bool) : Bool :=
  if !e.pluginClassFound then false
  else if !e.companionClassFound then false
  else if !e.companionFieldFound then false
  else if !e.companionPresent then false
  else if !e.getInstanceMethodFound then false
  else if !e.instancePresent then false
  else if !e.stopSingleMethodFound then false
  else e.callRaises

/-- Sample state with all four callback slots registered. -/
def stAllRegistered : PluginState :=
  { g_leftFrameCallback := 100, g_rightFrameCallback := 200,
    g_errorCallback := 300, g_stereoFrameCallback := 400, g_jvm := 7 }

/-- Sample state with every callback slot empty. -/
def stAllEmpty : PluginState :=
  { g_leftFrameCallback := 0, g_rightFrameCallback := 0,
    g_errorCallback := 0, g_stereoFrameCallback := 0, g_jvm := 7 }

/-- Frame-delivery input where all four arrays are retrievable (the concrete
scenario of the spec: 4-byte buffer, width 2, height 2, timestamp 1000,
4 intrinsics, 5 distortion, 7 pose entries). -/
def inputAllOk : FrameDeliveryInput :=
  { frameData := { data := [10, 20, 30, 40], retrievable := true },
    width := 2, height := 2, timestamp := 1000,
    intrinsics := { data := [1, 0, 0, 1], retrievable := true },
    distortion := { data := [0, 0, 0, 0, 0], retrievable := true },
    pose := { data := [0, 0, 0, 0, 0, 0, 1], retrievable := true } }

/-- Frame-delivery input where the frame bytes pin successfully but the
intrinsics array is unavailable (its pin returns null). -/
def inputIntrUnavailable : FrameDeliveryInput :=
  { frameData := { data := [10, 20, 30, 40], retrievable := true },
    width := 2, height := 2, timestamp := 1000,
    intrinsics := { data := [1, 0, 0, 1], retrievable := false },
    distortion := { data := [0, 0, 0, 0, 0], retrievable := true },
    pose := { data := [0, 0, 0, 0, 0, 0, 1], retrievable := true } }

/-- Relay environment where every lookup succeeds, the managed operation
returns true and raises no fault. -/
def relayEnvOk : RelayEnv :=
  { pluginClassFound := true, companionClassFound := true,
    companionFieldFound := true, companionPresent := true,
    getInstanceMethodFound := true, instancePresent := true,
    initMethodFound := true, startDualMethodFound := true,
    stopDualMethodFound := true, startSingleMethodFound := true,
    stopSingleMethodFound := true, contextClassFound := true,
    contextIsContext := true, callResult := true, callRaises := false }

/-- Relay environment where every lookup succeeds but the managed operation
raises a fault while being invoked. -/
def relayEnvFault : RelayEnv :=
  { relayEnvOk with callRaises := true }

/-- Sample stereo-delivery input with a 3-element metadata sequence. -/
def stereoInputEx : StereoDeliveryInput :=
  { frameData := { data := [1, 2, 3, 4], retrievable := true },
    width := 2, height := 2, timestamp := 1000,
    metadata := { data := [5, 6, 7], retrievable := true } }

/-- Sample error message whose UTF-8 chars are retrievable. -/
def errMsgEx : JString :=
  { text := "sensor timeout", retrievable := true }

/-- Claim C3: for every channel in the fixed set and every address value,
resolving the channel's slot after register(addr) returns addr, and
resolving after register(null), i.e. address 0, returns empty (0);
registration is a total store that validates nothing. -/
theorem registerChannel_resolve_roundtrip :
    ∀ (st : PluginState) (c : Channel) (addr : Addr),
      resolveChannel (registerChannel st c addr) c = addr ∧
      resolveChannel (registerChannel st c 0) c = 0 := by
  intro st c addr
  cases c <;>
    simp [registerChannel, resolveChannel, setLeftFrameCallback,
      setRightFrameCallback, setErrorCallback, setStereoFrameCallback]

/-- Claim C10: each registration entry point mutates only its own channel's
slot: setLeftFrameCallback leaves the right and error slots and the stored
runtime handle unchanged, and symmetrically for the other two setters. -/
theorem setter_mutates_only_own_slot :
    ∀ (st : PluginState) (a : Addr),
      ((setLeftFrameCallback st a).g_rightFrameCallback = st.g_rightFrameCallback ∧
       (setLeftFrameCallback st a).g_errorCallback = st.g_errorCallback ∧
       (setLeftFrameCallback st a).g_jvm = st.g_jvm) ∧
      ((setRightFrameCallback st a).g_leftFrameCallback = st.g_leftFrameCallback ∧
       (setRightFrameCallback st a).g_errorCallback = st.g_errorCallback ∧
       (setRightFrameCallback st a).g_jvm = st.g_jvm) ∧
      ((setErrorCallback st a).g_leftFrameCallback = st.g_leftFrameCallback ∧
       (setErrorCallback st a).g_rightFrameCallback = st.g_rightFrameCallback ∧
       (setErrorCallback st a).g_jvm = st.g_jvm) := by
  intro st a
  simp [setLeftFrameCallback, setRightFrameCallback, setErrorCallback]

/-- Claim C2: when the channel's slot is non-empty and all four input arrays
are retrievable, the registered callback is invoked exactly once, with the
side tag true for the left entry point and false for the right one, and with
buffer, size, width, height, timestamp and float sequences equal to the
delivered inputs. -/
theorem frame_delivery_exactly_once :
    ∀ (st : PluginState) (input : FrameDeliveryInput) (hvF hvI hvD hvP : List Nat),
      input.frameData.retrievable = true →
      input.intrinsics.retrievable = true →
      input.distortion.retrievable = true →
      input.pose.retrievable = true →
      (st.g_leftFrameCallback ≠ 0 →
        (onLeftFrameAvailable st input hvF hvI hvD hvP).invocations =
          [{ addr := st.g_leftFrameCallback,
             frameData := input.frameData.data,
             dataSize := (input.frameData.data.length : Int),
             width := input.width, height := input.height,
             timestamp := input.timestamp,
             intrinsics := input.intrinsics.data,
             distortion := input.distortion.data,
             pose := input.pose.data,
             isLeft := true }]) ∧
      (st.g_rightFrameCallback ≠ 0 →
        (onRightFrameAvailable st input hvF hvI hvD hvP).invocations =
          [{ addr := st.g_rightFrameCallback,
             frameData := input.frameData.data,
             dataSize := (input.frameData.data.length : Int),
             width := input.width, height := input.height,
             timestamp := input.timestamp,
             intrinsics := input.intrinsics.data,
             distortion := input.distortion.data,
             pose := input.pose.data,
             isLeft := false }]) := by
  intro st input hvF hvI hvD hvP hf hi hd hp
  constructor
  · intro hL
    simp [onLeftFrameAvailable, hL, hf, hi, hd, hp]
  · intro hR
    simp [onRightFrameAvailable, hR, hf, hi, hd, hp]

/-- Witness for C2: concrete left and right deliveries with all slots
registered and all arrays retrievable each produce exactly one invocation
with the matching payload and side tag. -/
theorem frame_delivery_exactly_once_witness :
    (onLeftFrameAvailable stAllRegistered inputAllOk [] [] [] []).invocations =
      [{ addr := 100, frameData := [10, 20, 30, 40], dataSize := 4,
         width := 2, height := 2, timestamp := 1000,
         intrinsics := [1, 0, 0, 1], distortion := [0, 0, 0, 0, 0],
         pose := [0, 0, 0, 0, 0, 0, 1], isLeft := true }] ∧
    (onRightFrameAvailable stAllRegistered inputAllOk [] [] [] []).invocations =
      [{ addr := 200, frameData := [10, 20, 30, 40], dataSize := 4,
         width := 2, height := 2, timestamp := 1000,
         intrinsics := [1, 0, 0, 1], distortion := [0, 0, 0, 0, 0],
         pose := [0, 0, 0, 0, 0, 0, 1], isLeft := false }] := by
  have h := frame_delivery_exactly_once stAllRegistered inputAllOk [] [] [] []
    rfl rfl rfl rfl
  exact ⟨h.1 (by decide), h.2 (by decide)⟩

/-- Claim C4: a delivery call on a channel whose slot is empty is a no-op:
no callback is invoked, the call returns normally, nothing is pinned, no
release is issued (so every acquired handle — there are none — is released),
and the caller's arrays are unchanged.  Stated for all four channels: the
left, right, error and stereo delivery entry points. -/
theorem empty_slot_delivery_noop :
    ∀ (st : PluginState) (input : FrameDeliveryInput) (hvF hvI hvD hvP : List Nat)
      (msg : JString) (sInput : StereoDeliveryInput) (hvSF hvSM : List Nat),
      (st.g_leftFrameCallback = 0 →
        (onLeftFrameAvailable st input hvF hvI hvD hvP).invocations = [] ∧
        (onLeftFrameAvailable st input hvF hvI hvD hvP).acquired = 0 ∧
        (onLeftFrameAvailable st input hvF hvI hvD hvP).releases = [] ∧
        (onLeftFrameAvailable st input hvF hvI hvD hvP).frameDataAfter =
          input.frameData.data) ∧
      (st.g_rightFrameCallback = 0 →
        (onRightFrameAvailable st input hvF hvI hvD hvP).invocations = [] ∧
        (onRightFrameAvailable st input hvF hvI hvD hvP).acquired = 0 ∧
        (onRightFrameAvailable st input hvF hvI hvD hvP).releases = [] ∧
        (onRightFrameAvailable st input hvF hvI hvD hvP).frameDataAfter =
          input.frameData.data) ∧
      (st.g_errorCallback = 0 → onCameraError st msg = []) ∧
      (st.g_stereoFrameCallback = 0 →
        (onStereoFrameAvailable st sInput hvSF hvSM).invocations = [] ∧
        (onStereoFrameAvailable st sInput hvSF hvSM).acquired = 0 ∧
        (onStereoFrameAvailable st sInput hvSF hvSM).releases = [] ∧
        (onStereoFrameAvailable st sInput hvSF hvSM).frameDataAfter =
          sInput.frameData.data ∧
        (onStereoFrameAvailable st sInput hvSF hvSM).metadataAfter =
          sInput.metadata.data) := by
  intro st input hvF hvI hvD hvP msg sInput hvSF hvSM
  refine ⟨fun hL => ?_, fun hR => ?_, fun hE => ?_, fun hS => ?_⟩
  · simp [onLeftFrameAvailable, hL]
  · simp [onRightFrameAvailable, hR]
  · simp [onCameraError, hE]
  · simp [onStereoFrameAvailable, hS]

/-- Witness for C4: with every slot empty, concrete left, right, error and
stereo deliveries invoke nothing, pin nothing and release nothing. -/
theorem empty_slot_delivery_noop_witness :
    ((onLeftFrameAvailable stAllEmpty inputAllOk [] [] [] []).invocations = [] ∧
     (onLeftFrameAvailable stAllEmpty inputAllOk [] [] [] []).acquired = 0 ∧
     (onLeftFrameAvailable stAllEmpty inputAllOk [] [] [] []).releases = [] ∧
     (onLeftFrameAvailable stAllEmpty inputAllOk [] [] [] []).frameDataAfter =
       inputAllOk.frameData.data) ∧
    ((onRightFrameAvailable stAllEmpty inputAllOk [] [] [] []).invocations = [] ∧
     (onRightFrameAvailable stAllEmpty inputAllOk [] [] [] []).acquired = 0 ∧
     (onRightFrameAvailable stAllEmpty inputAllOk [] [] [] []).releases = [] ∧
     (onRightFrameAvailable stAllEmpty inputAllOk [] [] [] []).frameDataAfter =
       inputAllOk.frameData.data) ∧
    onCameraError stAllEmpty errMsgEx = [] ∧
    ((onStereoFrameAvailable stAllEmpty stereoInputEx [] []).invocations = [] ∧
     (onStereoFrameAvailable stAllEmpty stereoInputEx [] []).acquired = 0 ∧
     (onStereoFrameAvailable stAllEmpty stereoInputEx [] []).releases = [] ∧
     (onStereoFrameAvailable stAllEmpty stereoInputEx [] []).frameDataAfter =
       stereoInputEx.frameData.data ∧
     (onStereoFrameAvailable stAllEmpty stereoInputEx [] []).metadataAfter =
       stereoInputEx.metadata.data) := by
  have h := empty_slot_delivery_noop stAllEmpty inputAllOk [] [] [] [] errMsgEx
    stereoInputEx [] []
  exact ⟨h.1 rfl, h.2.1 rfl, h.2.2.1 rfl, h.2.2.2 rfl⟩

/-- Claim C5: with a registered error callback and a retrievable message,
the error delivery acquires the string, invokes the callback exactly once
with exactly that message, and releases the string handle after the
invocation; with an empty error slot the callback is not invoked and the
message is dropped. -/
theorem error_delivery_exact :
    ∀ (st : PluginState) (msg : JString),
      (st.g_errorCallback ≠ 0 → msg.retrievable = true →
        onCameraError st msg =
          [ErrEvent.acquireStr,
           ErrEvent.invoke st.g_errorCallback msg.text,
           ErrEvent.releaseStr]) ∧
      (st.g_errorCallback = 0 → onCameraError st msg = []) := by
  intro st msg
  constructor
  · intro h hr
    simp [onCameraError, h, hr]
  · intro h
    simp [onCameraError, h]

/-- Witness for C5: delivering the message with callback address 300
registered invokes it once with that exact string and releases the handle
afterwards; after clearing the error slot the same delivery invokes
nothing. -/
theorem error_delivery_exact_witness :
    onCameraError stAllRegistered errMsgEx =
      [ErrEvent.acquireStr, ErrEvent.invoke 300 "sensor timeout",
       ErrEvent.releaseStr] ∧
    onCameraError (setErrorCallback stAllRegistered 0) errMsgEx = [] := by
  exact ⟨(error_delivery_exact stAllRegistered errMsgEx).1 (by decide) rfl,
    (error_delivery_exact (setErrorCallback stAllRegistered 0) errMsgEx).2 rfl⟩

/-- Claim C9: on every path of a frame delivery, every release that
is issued uses the pure-discard mode JNI_ABORT, and consequently the
caller-visible contents of the input arrays at return equal their contents
before the call, whatever the pinned native buffers held at release time;
stated for the left, right and stereo frame-delivery entry points. -/
theorem release_pure_discard :
    ∀ (st : PluginState) (input : FrameDeliveryInput) (hvF hvI hvD hvP : List Nat),
      ((onLeftFrameAvailable st input hvF hvI hvD hvP).releases.all
          ReleaseMode.isAbort = true ∧
       (onLeftFrameAvailable st input hvF hvI hvD hvP).frameDataAfter =
         input.frameData.data ∧
       (onLeftFrameAvailable st input hvF hvI hvD hvP).intrinsicsAfter =
         input.intrinsics.data ∧
       (onLeftFrameAvailable st input hvF hvI hvD hvP).distortionAfter =
         input.distortion.data ∧
       (onLeftFrameAvailable st input hvF hvI hvD hvP).poseAfter =
         input.pose.data) ∧
      ((onRightFrameAvailable st input hvF hvI hvD hvP).releases.all
          ReleaseMode.isAbort = true ∧
       (onRightFrameAvailable st input hvF hvI hvD hvP).frameDataAfter =
         input.frameData.data ∧
       (onRightFrameAvailable st input hvF hvI hvD hvP).intrinsicsAfter =
         input.intrinsics.data ∧
       (onRightFrameAvailable st input hvF hvI hvD hvP).distortionAfter =
         input.distortion.data ∧
       (onRightFrameAvailable st input hvF hvI hvD hvP).poseAfter =
         input.pose.data) ∧
      ∀ (sInput : StereoDeliveryInput) (hvSF hvSM : List Nat),
        (onStereoFrameAvailable st sInput hvSF hvSM).releases.all
          ReleaseMode.isAbort = true ∧
        (onStereoFrameAvailable st sInput hvSF hvSM).frameDataAfter =
          sInput.frameData.data ∧
        (onStereoFrameAvailable st sInput hvSF hvSM).metadataAfter =
          sInput.metadata.data := by
  intro st input hvF hvI hvD hvP
  refine ⟨?_, ?_, ?_⟩
  · by_cases hL : st.g_leftFrameCallback = 0 <;>
    cases hf : input.frameData.retrievable <;>
    cases hi : input.intrinsics.retrievable <;>
    cases hd : input.distortion.retrievable <;>
    cases hp : input.pose.retrievable <;>
      simp [onLeftFrameAvailable, hL, hf, hi, hd, hp, releaseArraySem,
        ReleaseMode.isAbort]
  · by_cases hR : st.g_rightFrameCallback = 0 <;>
    cases hf : input.frameData.retrievable <;>
    cases hi : input.intrinsics.retrievable <;>
    cases hd : input.distortion.retrievable <;>
    cases hp : input.pose.retrievable <;>
      simp [onRightFrameAvailable, hR, hf, hi, hd, hp, releaseArraySem,
        ReleaseMode.isAbort]
  · intro sInput hvSF hvSM
    by_cases hS : st.g_stereoFrameCallback = 0 <;>
    cases hf : sInput.frameData.retrievable <;>
    cases hm : sInput.metadata.retrievable <;>
      simp [onStereoFrameAvailable, hS, hf, hm, releaseArraySem,
        ReleaseMode.isAbort, List.replicate]

/-- Claim C1, evaluated at the failing input: with the left callback
registered and the intrinsics array unavailable, the delivery call pins
three handles (frame bytes, distortion, pose) yet returns without issuing a
single release — the acquired-handle count (3) differs from the
released-handle count (0), so the early-return path leaks the pinned
handles. -/
theorem left_frame_early_return_leaks :
    (onLeftFrameAvailable stAllRegistered inputIntrUnavailable [] [] [] []).acquired = 3 ∧
    (onLeftFrameAvailable stAllRegistered inputIntrUnavailable [] [] [] []).releases = [] := by
  exact ⟨rfl, rfl⟩

/-- Claim C6, evaluated at the failing input: in the environment where every
lookup succeeds but the managed operation raises a fault, nativeInitialize
clears the fault and returns false as the claim states, but
nativeStartDualCamera, nativeStopDualCamera, nativeStartSingleCamera and
nativeStopSingleCamera return with the fault still pending in the calling
frame (second component / result true), so the fault propagates into the
engine runtime. -/
theorem relay_fault_left_pending :
    nativeInitialize relayEnvFault = (false, false) ∧
    nativeStartDualCamera relayEnvFault = (true, true) ∧
    nativeStopDualCamera relayEnvFault = true ∧
    nativeStartSingleCamera relayEnvFault true = (true, true) ∧
    nativeStopSingleCamera relayEnvFault true = true := by
  exact ⟨rfl, rfl, rfl, rfl, rfl⟩

/-- Claim C7: the channel set is fixed at exactly the four channels
including stereo-frame; the stereo channel has a registration entry point
(register then resolve round-trips on it) and a delivery entry point whose
metadata count argument equals the actual length of the supplied metadata
sequence. -/
theorem stereo_channel_metadata_length :
    (∀ c : Channel, c = Channel.leftFrame ∨ c = Channel.rightFrame ∨
      c = Channel.cameraError ∨ c = Channel.stereoFrame) ∧
    (∀ (st : PluginState) (a : Addr),
      resolveChannel (registerChannel st Channel.stereoFrame a)
        Channel.stereoFrame = a) ∧
    (∀ (st : PluginState) (input : StereoDeliveryInput) (hvSF hvSM : List Nat),
      st.g_stereoFrameCallback ≠ 0 →
      input.frameData.retrievable = true →
      input.metadata.retrievable = true →
      (onStereoFrameAvailable st input hvSF hvSM).invocations =
        [{ addr := st.g_stereoFrameCallback,
           frameData := input.frameData.data,
           dataSize := (input.frameData.data.length : Int),
           width := input.width, height := input.height,
           timestamp := input.timestamp,
           metadata := input.metadata.data,
           metadataSize := (input.metadata.data.length : Int) }]) := by
  refine ⟨fun c => ?_, fun st a => ?_, fun st input hvSF hvSM h hf hm => ?_⟩
  · cases c <;> simp
  · simp [registerChannel, resolveChannel, setStereoFrameCallback]
  · simp [onStereoFrameAvailable, h, hf, hm]

/-- Witness for C7: a concrete stereo delivery with a 3-element metadata
sequence hands the callback metadata count 3, the actual length. -/
theorem stereo_channel_metadata_length_witness :
    (onStereoFrameAvailable stAllRegistered stereoInputEx [] []).invocations.map
      StereoInvocation.metadataSize = [3] := by
  rw [stereo_channel_metadata_length.2.2 stAllRegistered stereoInputEx [] []
    (by decide) rfl rfl]
  rfl

end QuestCamera

